import Mathlib

/-!
Verification of the CRTB-to-RBAC reconciliation lifecycle and the ancillary
REST stores (token store, user-activity store) of the repository, via a
shallow embedding of the Go source in Lean 4.

External collaborators (the Kubernetes API server, listers/caches, the user
manager, the hashing library) are modelled as environments of oracle
functions returning `Except`-typed outcomes, exactly mirroring the call
sites in the Go code.  Each embedded operation additionally returns a trace
of the side-effecting calls it issued, so that claims about which calls are
or are not made can be stated and proved.
-/

namespace RancherSpec

/-- A Kubernetes API error as observed by the Go code: a message plus the
information whether `apierrors.IsNotFound` holds for it. -/
structure KErr where
  msg : String
  isNotFound : Bool
deriving DecidableEq, Repr

/-- Object metadata of a custom resource: namespace, name, UID, labels and
annotations (the fields the embedded code reads). -/
structure ObjectMeta where
  ns : String
  name : String
  uid : String
  labels : List (String × String)
  annots : List (String × String)
deriving DecidableEq, Repr

/-- `v3.ClusterRoleTemplateBinding`: the fields read by the crtb lifecycle
handlers in `crtb_handler.go`. -/
structure ClusterRoleTemplateBinding where
  meta : ObjectMeta
  userName : String
  userPrincipalName : String
  groupName : String
  groupPrincipalName : String
  clusterName : String
  roleTemplateName : String
deriving DecidableEq, Repr

/-- A user record as returned by the user manager / user lister
(`v3.User`): its name and its known principal IDs. -/
structure UserRec where
  name : String
  principalIDs : List String
deriving DecidableEq, Repr

/-- Modelled from the spec: `pkgrbac.GetRTBLabel` is defined outside the
provided sources; per the spec and the comment block in `crtb_handler.go`,
the post-2.5 binding key is "a combination of its namespace and name". -/
def GetRTBLabel (m : ObjectMeta) : String :=
  m.ns ++ "_" ++ m.name

/-- Label constants from `crtb_handler.go`. -/
def MembershipBindingOwnerLegacy : String := "memberhsip-binding-owner"

def MembershipBindingOwner : String := "membership-binding-owner"

def CrtbInProjectBindingOwner : String := "crtb-in-project-binding-owner"

def rtbLabelUpdated : String := "auth.management.cattle.io/rtb-label-updated"

def RtbCrbRbLabelsUpdated : String := "auth.management.cattle.io/crb-rb-labels-updated"

/-- The static allow-list `clusterManagementPlaneResources` of
`crtb_handler.go` (resource name → API group). -/
def clusterManagementPlaneResources : List (String × String) :=
  [("clusterscans", "management.cattle.io"),
   ("catalogtemplates", "management.cattle.io"),
   ("catalogtemplateversions", "management.cattle.io"),
   ("clusteralertrules", "management.cattle.io"),
   ("clusteralertgroups", "management.cattle.io"),
   ("clustercatalogs", "management.cattle.io"),
   ("clusterloggings", "management.cattle.io"),
   ("clustermonitorgraphs", "management.cattle.io"),
   ("clusterregistrationtokens", "management.cattle.io"),
   ("clusterroletemplatebindings", "management.cattle.io"),
   ("etcdbackups", "management.cattle.io"),
   ("nodes", "management.cattle.io"),
   ("nodepools", "management.cattle.io"),
   ("notifiers", "management.cattle.io"),
   ("projects", "management.cattle.io"),
   ("etcdsnapshots", "rke.cattle.io")]

/-- Go's `strings.HasSuffix s suff`: does `s` end with `suff`? -/
def stringHasSuffix (s suff : String) : Bool :=
  suff.data.isSuffixOf s.data

/-- Go's `strings.ToLower` (character-wise lowering; the inputs here are
ASCII role names). -/
def stringToLower (s : String) : String :=
  ⟨s.data.map Char.toLower⟩

/-! ## Subject resolution (`reconcileSubject`, crtb_handler.go:108-139) -/

/-- Environment for `reconcileSubject`: the user manager's `EnsureUser`
(principal name, display name) and the user lister's `Get` (user name). -/
structure SubjectEnv where
  ensureUser : String → String → Except KErr UserRec
  userGet : String → Except KErr UserRec

/-- `crtbLifecycle.reconcileSubject` (crtb_handler.go:108-139).  Besides the
Go result it returns the number of `EnsureUser` calls issued, so that the
"ensure user is called exactly once" property can be stated.  The Go code
returns a `(binding, err)` pair in which a non-nil error dominates; this is
rendered as `Except`. -/
def reconcileSubject (env : SubjectEnv) (binding : ClusterRoleTemplateBinding) :
    Except KErr ClusterRoleTemplateBinding × Nat :=
  if binding.groupName ≠ "" ∨ binding.groupPrincipalName ≠ "" ∨
      (binding.userPrincipalName ≠ "" ∧ binding.userName ≠ "") then
    (.ok binding, 0)
  else if binding.userPrincipalName ≠ "" ∧ binding.userName = "" then
    let displayName :=
      ((binding.meta.annots.lookup "auth.cattle.io/principal-display-name").getD "")
    match env.ensureUser binding.userPrincipalName displayName with
    | .error e => (.error e, 1)
    | .ok user => (.ok { binding with userName := user.name }, 1)
  else if binding.userPrincipalName = "" ∧ binding.userName ≠ "" then
    match env.userGet binding.userName with
    | .error e => (.error e, 0)
    | .ok u =>
      match u.principalIDs.find? (fun p => stringHasSuffix p binding.userName) with
      | some p => (.ok { binding with userPrincipalName := p }, 0)
      | none => (.ok binding, 0)
  else
    (.error ⟨"ClusterRoleTemplateBinding " ++ binding.meta.name ++ " has no subject", false⟩, 0)

/-- Concrete metadata used by the witnesses. -/
def metaW : ObjectMeta :=
  { ns := "c-1", name := "crtb-1", uid := "uid-1", labels := [], annots := [] }

/-- Concrete subject-resolution environment used by the witnesses. -/
def subjEnvW : SubjectEnv where
  ensureUser := fun p _ => .ok { name := "u-abc", principalIDs := [p] }
  userGet := fun n => .ok { name := n, principalIDs := ["local://" ++ n] }

/-- Fully specified user binding. -/
def bindW1 : ClusterRoleTemplateBinding :=
  { meta := metaW, userName := "alice", userPrincipalName := "local://alice",
    groupName := "", groupPrincipalName := "",
    clusterName := "c-1", roleTemplateName := "cluster-owner" }

/-- Binding with only a user principal name. -/
def bindW2 : ClusterRoleTemplateBinding :=
  { bindW1 with userName := "", userPrincipalName := "local://alice" }

/-- Binding with only a user name. -/
def bindW3 : ClusterRoleTemplateBinding :=
  { bindW1 with userName := "alice", userPrincipalName := "" }

/-- Binding with no subject at all. -/
def bindW4 : ClusterRoleTemplateBinding :=
  { bindW1 with userName := "", userPrincipalName := "" }

/-- C3: `reconcileSubject` implements the four-case contract: (1) a group
binding, or a binding with both user name and user principal name set, is
returned unchanged with no EnsureUser call; (2) with only the principal name
set, EnsureUser is called exactly once and its resulting name is written
into the binding; (3) with only the user name set, the user's principal IDs
are scanned for the first one having the name as a suffix, which is written
as the principal; (4) with no subject field set, the call fails with a
"has no subject" error. -/
theorem reconcileSubject_contract (env : SubjectEnv) (b : ClusterRoleTemplateBinding) :
    ((b.groupName ≠ "" ∨ b.groupPrincipalName ≠ "" ∨
        (b.userPrincipalName ≠ "" ∧ b.userName ≠ "")) →
      reconcileSubject env b = (.ok b, 0)) ∧
    (b.groupName = "" → b.groupPrincipalName = "" →
      b.userPrincipalName ≠ "" → b.userName = "" →
      ∀ u, env.ensureUser b.userPrincipalName
          ((b.meta.annots.lookup "auth.cattle.io/principal-display-name").getD "") = .ok u →
      reconcileSubject env b = (.ok { b with userName := u.name }, 1)) ∧
    (b.groupName = "" → b.groupPrincipalName = "" →
      b.userPrincipalName = "" → b.userName ≠ "" →
      ∀ u p, env.userGet b.userName = .ok u →
      u.principalIDs.find? (fun q => stringHasSuffix q b.userName) = some p →
      reconcileSubject env b = (.ok { b with userPrincipalName := p }, 0)) ∧
    (b.groupName = "" → b.groupPrincipalName = "" →
      b.userPrincipalName = "" → b.userName = "" →
      reconcileSubject env b =
        (.error ⟨"ClusterRoleTemplateBinding " ++ b.meta.name ++ " has no subject", false⟩, 0)) := by
  refine ⟨?_, ?_, ?_, ?_⟩
  · intro h
    unfold reconcileSubject
    rw [if_pos h]
  · intro hg hgp hup hun u hu
    simp only [reconcileSubject, hg, hgp, hun, hup, hu, ne_eq, not_true_eq_false,
      and_false, and_true, or_self, or_false, if_false, not_false_eq_true, if_true]
  · intro hg hgp hup hun u p hu hp
    simp only [reconcileSubject, hg, hgp, hun, hup, hu, hp, ne_eq, not_true_eq_false,
      false_and, and_false, or_self, or_false, if_false, not_false_eq_true, and_self,
      if_true]
  · intro hg hgp hup hun
    simp only [reconcileSubject, hg, hgp, hun, hup, ne_eq, not_true_eq_false,
      false_and, and_false, or_self, if_false]

/-- Witness for C3: the four cases evaluated at concrete bindings. -/
theorem reconcileSubject_contract_witness :
    reconcileSubject subjEnvW bindW1 = (.ok bindW1, 0) ∧
    reconcileSubject subjEnvW bindW2 =
      (.ok { bindW2 with userName := "u-abc" }, 1) ∧
    reconcileSubject subjEnvW bindW3 =
      (.ok { bindW3 with userPrincipalName := "local://alice" }, 0) ∧
    reconcileSubject subjEnvW bindW4 =
      (.error ⟨"ClusterRoleTemplateBinding crtb-1 has no subject", false⟩, 0) :=
  ⟨(reconcileSubject_contract subjEnvW bindW1).1 (by decide),
   (reconcileSubject_contract subjEnvW bindW2).2.1 (by decide) (by decide) (by decide)
     (by decide) { name := "u-abc", principalIDs := ["local://alice"] } rfl,
   (reconcileSubject_contract subjEnvW bindW3).2.2.1 (by decide) (by decide) (by decide)
     (by decide) { name := "alice", principalIDs := ["local://alice"] } "local://alice"
     rfl (by decide),
   (reconcileSubject_contract subjEnvW bindW4).2.2.2 (by decide) (by decide) (by decide)
     (by decide)⟩

/-! ## Binding reconciliation (`reconcileBindings`, crtb_handler.go:146-202) -/

instance {ε α : Type} [DecidableEq ε] [DecidableEq α] : DecidableEq (Except ε α)
  | .error a, .error b => decidable_of_iff (a = b) (by simp)
  | .error _, .ok _ => .isFalse (by simp)
  | .ok _, .error _ => .isFalse (by simp)
  | .ok a, .ok b => decidable_of_iff (a = b) (by simp)

/-- A management cluster object (`v3.Cluster`); only its identity matters
to the embedded code. -/
structure Cluster where
  name : String
deriving DecidableEq, Repr

/-- A project in the binding's namespace; `deleting` models
`DeletionTimestamp != nil`. -/
structure Project where
  name : String
  deleting : Bool
deriving DecidableEq, Repr

/-- An RBAC subject (user or group). -/
structure Subject where
  kind : String
  name : String
deriving DecidableEq, Repr

/-- Modelled from the spec: `pkgrbac.BuildSubjectFromRTB` is defined outside
the provided sources; per the spec it resolves the binding's mutually
exclusive subject variants to a concrete subject, failing when none is
populated. -/
def BuildSubjectFromRTB (b : ClusterRoleTemplateBinding) : Except KErr Subject :=
  if b.userName ≠ "" then .ok ⟨"User", b.userName⟩
  else if b.groupPrincipalName ≠ "" then .ok ⟨"Group", b.groupPrincipalName⟩
  else if b.groupName ≠ "" then .ok ⟨"Group", b.groupName⟩
  else .error ⟨"missing subject", false⟩

/-- Side-effecting calls issued by `reconcileBindings`, in order. -/
inductive BindingsEvent where
  | ensuredMembership (clusterRoleName bindingKey : String)
  | grantedPlane (roleTemplateName : String)
  | grantedInProject (projectName : String)
deriving DecidableEq, Repr

/-- Environment for `reconcileBindings`: the cluster lister, the manager's
role-template check and grant operations, and the project lister.  The Go
call `grantManagementClusterScopedPrivilegesInProjectNamespace` also passes
the static allow-list `projectManagementPlaneResources`, which is declared
outside the provided sources and identical on every call, so it is not a
parameter here. -/
structure BindingsEnv where
  clusterGet : String → Except KErr (Option Cluster)
  checkReferencedRoles : String → Except KErr Bool
  ensureClusterMembershipBinding : String → String → Cluster → Bool → Subject → Except KErr Unit
  grantManagementPlanePrivileges : String → List (String × String) → Subject → Except KErr Unit
  projectList : String → Except KErr (List Project)
  grantInProjectNamespace : String → String → Subject → Except KErr Unit

/-- The per-project loop of `reconcileBindings` (crtb_handler.go:192-200):
projects being deleted are skipped; otherwise the grant is attempted, and a
grant error is returned immediately. -/
def grantProjectsLoop (env : BindingsEnv) (rt : String) (subject : Subject) :
    List Project → Except KErr Unit × List BindingsEvent
  | [] => (.ok (), [])
  | p :: rest =>
    if p.deleting then grantProjectsLoop env rt subject rest
    else
      match env.grantInProjectNamespace rt p.name subject with
      | .error e => (.error e, [.grantedInProject p.name])
      | .ok _ =>
        let r := grantProjectsLoop env rt subject rest
        (r.1, .grantedInProject p.name :: r.2)

/-- `crtbLifecycle.reconcileBindings` (crtb_handler.go:146-202), returning
the Go result together with the trace of grant calls issued. -/
def reconcileBindings (env : BindingsEnv) (binding : ClusterRoleTemplateBinding) :
    Except KErr Unit × List BindingsEvent :=
  if binding.userName = "" ∧ binding.groupPrincipalName = "" ∧ binding.groupName = "" then
    (.ok (), [])
  else
    match env.clusterGet binding.clusterName with
    | .error e => (.error e, [])
    | .ok none =>
      (.error ⟨"cannot create binding because cluster " ++ binding.clusterName ++
        " was not found", false⟩, [])
    | .ok (some cluster) =>
      match env.checkReferencedRoles binding.roleTemplateName with
      | .error e => if e.isNotFound then (.ok (), []) else (.error e, [])
      | .ok isOwnerRole =>
        let clusterRoleName :=
          if isOwnerRole then stringToLower (binding.clusterName ++ "-clusterowner")
          else stringToLower (binding.clusterName ++ "-clustermember")
        match BuildSubjectFromRTB binding with
        | .error e => (.error e, [])
        | .ok subject =>
          match env.ensureClusterMembershipBinding clusterRoleName
              (GetRTBLabel binding.meta) cluster isOwnerRole subject with
          | .error e =>
            (.error e, [.ensuredMembership clusterRoleName (GetRTBLabel binding.meta)])
          | .ok _ =>
            match env.grantManagementPlanePrivileges binding.roleTemplateName
                clusterManagementPlaneResources subject with
            | .error e =>
              (.error e, [.ensuredMembership clusterRoleName (GetRTBLabel binding.meta),
                .grantedPlane binding.roleTemplateName])
            | .ok _ =>
              match env.projectList binding.meta.ns with
              | .error e =>
                (.error e, [.ensuredMembership clusterRoleName (GetRTBLabel binding.meta),
                  .grantedPlane binding.roleTemplateName])
              | .ok projects =>
                let r := grantProjectsLoop env binding.roleTemplateName subject projects
                (r.1, .ensuredMembership clusterRoleName (GetRTBLabel binding.meta) ::
                  .grantedPlane binding.roleTemplateName :: r.2)

/-- Concrete environment in which the first project's grant fails while a
second healthy project follows. -/
def bindEnvC1 : BindingsEnv where
  clusterGet := fun _ => .ok (some ⟨"c-1"⟩)
  checkReferencedRoles := fun _ => .ok true
  ensureClusterMembershipBinding := fun _ _ _ _ _ => .ok ()
  grantManagementPlanePrivileges := fun _ _ _ => .ok ()
  projectList := fun _ => .ok [⟨"p-1", false⟩, ⟨"p-2", false⟩]
  grantInProjectNamespace := fun _ pname _ =>
    if pname = "p-1" then .error ⟨"grant failed in p-1", false⟩ else .ok ()

/-- Counterexample for C1: with two live projects p-1 and p-2 and a grant
failure in p-1, `reconcileBindings` returns the p-1 error and never attempts
the grant for p-2 — the per-project replication aborts instead of
continuing. -/
theorem reconcileBindings_project_failure_not_aggregated :
    (reconcileBindings bindEnvC1 bindW1).1 = .error ⟨"grant failed in p-1", false⟩ ∧
    BindingsEvent.grantedInProject "p-2" ∉ (reconcileBindings bindEnvC1 bindW1).2 ∧
    bindEnvC1.projectList bindW1.meta.ns = .ok [⟨"p-1", false⟩, ⟨"p-2", false⟩] := by
  decide

/-- Helper: in the per-project loop, once a live project's grant fails, its
error is returned and no later project is attempted. -/
theorem grantProjectsLoop_fail_head (env : BindingsEnv) (rt : String) (subject : Subject)
    (ps1 : List Project) (p : Project) (ps2 : List Project) (e : KErr)
    (h1 : ∀ q ∈ ps1, q.deleting = true ∨ env.grantInProjectNamespace rt q.name subject = .ok ())
    (hdel : p.deleting = false)
    (hfail : env.grantInProjectNamespace rt p.name subject = .error e) :
    grantProjectsLoop env rt subject (ps1 ++ p :: ps2) =
      (.error e,
       (ps1.filter (fun q => !q.deleting)).map (fun q => .grantedInProject q.name) ++
         [.grantedInProject p.name]) := by
  induction ps1 with
  | nil => simp [grantProjectsLoop, hdel, hfail]
  | cons q qs ih =>
    have hq := h1 q (by simp)
    have hqs : ∀ r ∈ qs, r.deleting = true ∨
        env.grantInProjectNamespace rt r.name subject = .ok () :=
      fun r hr => h1 r (by simp [hr])
    rcases hq with hq | hq
    · simp [grantProjectsLoop, hq, ih hqs]
    · by_cases hqd : q.deleting
      · simp [grantProjectsLoop, hqd, ih hqs]
      · simp [grantProjectsLoop, hqd, hq, ih hqs]

/-- C1 (amended): during Create/Update reconciliation, a failure of
`grantManagementClusterScopedPrivilegesInProjectNamespace` for one live
project aborts the whole per-project batch: the error is returned
immediately and the grant is not attempted for any remaining project
(crtb_handler.go:197-199 returns inside the loop). -/
theorem reconcileBindings_project_failure_aborts (env : BindingsEnv)
    (b : ClusterRoleTemplateBinding) (c : Cluster) (own : Bool) (subject : Subject)
    (ps1 : List Project) (p : Project) (ps2 : List Project) (e : KErr)
    (hsubj : ¬(b.userName = "" ∧ b.groupPrincipalName = "" ∧ b.groupName = ""))
    (hc : env.clusterGet b.clusterName = .ok (some c))
    (href : env.checkReferencedRoles b.roleTemplateName = .ok own)
    (hbs : BuildSubjectFromRTB b = .ok subject)
    (hens : env.ensureClusterMembershipBinding
      (if own then stringToLower (b.clusterName ++ "-clusterowner")
       else stringToLower (b.clusterName ++ "-clustermember"))
      (GetRTBLabel b.meta) c own subject = .ok ())
    (hgr : env.grantManagementPlanePrivileges b.roleTemplateName
      clusterManagementPlaneResources subject = .ok ())
    (hpl : env.projectList b.meta.ns = .ok (ps1 ++ p :: ps2))
    (h1 : ∀ q ∈ ps1, q.deleting = true ∨
      env.grantInProjectNamespace b.roleTemplateName q.name subject = .ok ())
    (hdel : p.deleting = false)
    (hfail : env.grantInProjectNamespace b.roleTemplateName p.name subject = .error e) :
    reconcileBindings env b =
      (.error e,
       .ensuredMembership
         (if own then stringToLower (b.clusterName ++ "-clusterowner")
          else stringToLower (b.clusterName ++ "-clustermember")) (GetRTBLabel b.meta) ::
       .grantedPlane b.roleTemplateName ::
       ((ps1.filter (fun q => !q.deleting)).map (fun q => .grantedInProject q.name) ++
         [.grantedInProject p.name])) := by
  have hloop := grantProjectsLoop_fail_head env b.roleTemplateName subject ps1 p ps2 e
    h1 hdel hfail
  cases own <;>
    simp_all [reconcileBindings, hsubj, hc, href, hbs, hens, hgr, hpl, hloop]

/-- Witness for the amended C1 at a concrete environment. -/
theorem reconcileBindings_project_failure_aborts_witness :
    reconcileBindings bindEnvC1 bindW1 =
      (.error ⟨"grant failed in p-1", false⟩,
       [.ensuredMembership "c-1-clusterowner" "c-1_crtb-1", .grantedPlane "cluster-owner",
        .grantedInProject "p-1"]) := by
  rw [reconcileBindings_project_failure_aborts bindEnvC1 bindW1 ⟨"c-1"⟩ true
    ⟨"User", "alice"⟩ [] ⟨"p-1", false⟩ [⟨"p-2", false⟩] ⟨"grant failed in p-1", false⟩
    (by decide) (by decide) (by decide) (by decide) (by decide) (by decide) (by decide)
    (by intro q hq; cases hq) (by decide) (by decide)]
  decide

/-- Environment in which the role-template reference check fails with a
NotFound error. -/
def bindEnvC6 : BindingsEnv :=
  { bindEnvC1 with
    checkReferencedRoles := fun _ => .error ⟨"roletemplate not found", true⟩ }

/-- Environment in which the role-template reference check fails with a
non-NotFound error. -/
def bindEnvC6b : BindingsEnv :=
  { bindEnvC1 with
    checkReferencedRoles := fun _ => .error ⟨"api server unavailable", false⟩ }

/-- C6: during Create/Update reconciliation, when the inheritance-chain
check on the referenced role template fails with a not-found error,
`reconcileBindings` returns success with no binding synthesis performed
(empty trace); any other error from the check is propagated as a failure. -/
theorem reconcileBindings_missing_role_template (env : BindingsEnv)
    (b : ClusterRoleTemplateBinding) (c : Cluster) (e : KErr)
    (hsubj : ¬(b.userName = "" ∧ b.groupPrincipalName = "" ∧ b.groupName = ""))
    (hc : env.clusterGet b.clusterName = .ok (some c))
    (href : env.checkReferencedRoles b.roleTemplateName = .error e) :
    (e.isNotFound = true → reconcileBindings env b = (.ok (), [])) ∧
    (e.isNotFound = false → reconcileBindings env b = (.error e, [])) := by
  constructor <;> intro h <;> simp [reconcileBindings, hsubj, hc, href, h]

/-- Witness for C6: NotFound is skipped, another error is propagated. -/
theorem reconcileBindings_missing_role_template_witness :
    reconcileBindings bindEnvC6 bindW1 = (.ok (), []) ∧
    reconcileBindings bindEnvC6b bindW1 = (.error ⟨"api server unavailable", false⟩, []) :=
  ⟨(reconcileBindings_missing_role_template bindEnvC6 bindW1 ⟨"c-1"⟩
      ⟨"roletemplate not found", true⟩ (by decide) (by decide) (by decide)).1 rfl,
   (reconcileBindings_missing_role_template bindEnvC6b bindW1 ⟨"c-1"⟩
      ⟨"api server unavailable", false⟩ (by decide) (by decide) (by decide)).2 rfl⟩

/-! ## Remove path (`Remove` crtb_handler.go:96-106 and
`removeMGMTClusterScopedPrivilegesInProjectNamespace` crtb_handler.go:204-224) -/

/-- A `RoleBinding` as seen by the remove path: its name and labels within
a project namespace. -/
structure RoleBinding where
  name : String
  labels : List (String × String)
deriving DecidableEq, Repr

/-- Kubernetes equality-based label-selector semantics
(`labels.Set(...).AsSelector()`): every key/value pair of the set must be
present among the object's labels. -/
def labelSetMatches (set : List (String × String)) (lbls : List (String × String)) : Bool :=
  set.all (fun kv => lbls.lookup kv.1 == some kv.2)

/-- Environment for the remove path: the project lister, the role-binding
lister's cache per project namespace, and the outcome of
`rbClient.DeleteNamespaced`. -/
structure RemoveEnv where
  projectList : String → Except KErr (List Project)
  rbWorld : String → List RoleBinding
  deleteOutcome : String → String → Except KErr Unit

/-- `rbLister.List(ns, selector)`: the cached role bindings of the
namespace matching the selector. -/
def rbListerList (env : RemoveEnv) (ns : String) (set : List (String × String)) :
    List RoleBinding :=
  (env.rbWorld ns).filter (fun rb => labelSetMatches set rb.labels)

/-- The inner delete loop of crtb_handler.go:216-221: delete each listed
role binding, returning on the first delete error.  The trace lists the
`(namespace, name)` pairs of the delete calls issued. -/
def deleteRBs (env : RemoveEnv) (ns : String) :
    List RoleBinding → Except KErr Unit × List (String × String)
  | [] => (.ok (), [])
  | rb :: rest =>
    match env.deleteOutcome ns rb.name with
    | .error e => (.error e, [(ns, rb.name)])
    | .ok _ =>
      let r := deleteRBs env ns rest
      (r.1, (ns, rb.name) :: r.2)

/-- The outer per-project loop of crtb_handler.go:210-222. -/
def removeProjectsLoop (env : RemoveEnv) (bindingKey : String) :
    List Project → Except KErr Unit × List (String × String)
  | [] => (.ok (), [])
  | p :: rest =>
    let rbs := rbListerList env p.name [(bindingKey, CrtbInProjectBindingOwner)]
    let d := deleteRBs env p.name rbs
    match d.1 with
    | .error e => (.error e, d.2)
    | .ok _ =>
      let r := removeProjectsLoop env bindingKey rest
      (r.1, d.2 ++ r.2)

/-- `crtbLifecycle.removeMGMTClusterScopedPrivilegesInProjectNamespace`
(crtb_handler.go:204-224). -/
def removeMGMTClusterScopedPrivilegesInProjectNamespace (env : RemoveEnv)
    (binding : ClusterRoleTemplateBinding) : Except KErr Unit × List (String × String) :=
  match env.projectList binding.meta.ns with
  | .error e => (.error e, [])
  | .ok projects => removeProjectsLoop env (GetRTBLabel binding.meta) projects

/-- Environment for the other two manager calls made by
`crtbLifecycle.Remove`. -/
structure RemoveLifecycleEnv where
  reconcileClusterMembershipBindingForDelete : String → String → Except KErr Unit
  removeAuthV2Permissions : ClusterRoleTemplateBinding → Except KErr Unit

/-- `crtbLifecycle.Remove` (crtb_handler.go:96-106). -/
def Remove (lenv : RemoveLifecycleEnv) (env : RemoveEnv)
    (obj : ClusterRoleTemplateBinding) : Except KErr Unit × List (String × String) :=
  match lenv.reconcileClusterMembershipBindingForDelete "" (GetRTBLabel obj.meta) with
  | .error e => (.error e, [])
  | .ok _ =>
    let r := removeMGMTClusterScopedPrivilegesInProjectNamespace env obj
    match r.1 with
    | .error e => (.error e, r.2)
    | .ok _ =>
      match lenv.removeAuthV2Permissions obj with
      | .error e => (.error e, r.2)
      | .ok _ => (.ok (), r.2)

/-- Helper: when every delete succeeds, the inner loop deletes exactly the
listed role bindings, in order. -/
theorem deleteRBs_all_ok (env : RemoveEnv) (ns : String) (rbs : List RoleBinding)
    (hdel : ∀ n, env.deleteOutcome ns n = .ok ()) :
    deleteRBs env ns rbs = (.ok (), rbs.map (fun rb => (ns, rb.name))) := by
  induction rbs with
  | nil => rfl
  | cons rb rest ih => simp [deleteRBs, hdel rb.name, ih]

/-- Helper: when every delete succeeds, the per-project loop deletes, for
each project, exactly the role bindings matching the ownership selector. -/
theorem removeProjectsLoop_all_ok (env : RemoveEnv) (key : String) (ps : List Project)
    (hdel : ∀ ns n, env.deleteOutcome ns n = .ok ()) :
    removeProjectsLoop env key ps =
      (.ok (), ps.flatMap (fun p =>
        (rbListerList env p.name [(key, CrtbInProjectBindingOwner)]).map
          (fun rb => (p.name, rb.name)))) := by
  induction ps with
  | nil => rfl
  | cons p rest ih =>
    simp [removeProjectsLoop, deleteRBs_all_ok env p.name _ (hdel p.name), ih]

/-- C2: on Remove, the per-project cleanup deletes exactly the RoleBindings
(across the projects of the binding's namespace) whose labels carry this
CRTB's own provenance key with value `crtb-in-project-binding-owner`; every
delete issued is for a role binding so labeled, hence role bindings labeled
only with a different CRTB's key are never deleted. -/
theorem removeMGMT_deletes_exactly_owned (env : RemoveEnv)
    (binding : ClusterRoleTemplateBinding) (ps : List Project)
    (hpl : env.projectList binding.meta.ns = .ok ps)
    (hdel : ∀ ns n, env.deleteOutcome ns n = .ok ()) :
    removeMGMTClusterScopedPrivilegesInProjectNamespace env binding =
      (.ok (), ps.flatMap (fun p =>
        ((env.rbWorld p.name).filter (fun rb =>
          rb.labels.lookup (GetRTBLabel binding.meta) == some CrtbInProjectBindingOwner)).map
            (fun rb => (p.name, rb.name)))) ∧
    (∀ pr nm,
      (pr, nm) ∈ (removeMGMTClusterScopedPrivilegesInProjectNamespace env binding).2 →
      ∃ p ∈ ps, p.name = pr ∧ ∃ rb ∈ env.rbWorld pr,
        rb.name = nm ∧
        rb.labels.lookup (GetRTBLabel binding.meta) = some CrtbInProjectBindingOwner) := by
  have hsel : ∀ pn, rbListerList env pn [(GetRTBLabel binding.meta, CrtbInProjectBindingOwner)] =
      (env.rbWorld pn).filter (fun rb =>
        rb.labels.lookup (GetRTBLabel binding.meta) == some CrtbInProjectBindingOwner) := by
    intro pn
    simp [rbListerList, labelSetMatches]
  have hmain : removeMGMTClusterScopedPrivilegesInProjectNamespace env binding =
      (.ok (), ps.flatMap (fun p =>
        ((env.rbWorld p.name).filter (fun rb =>
          rb.labels.lookup (GetRTBLabel binding.meta) == some CrtbInProjectBindingOwner)).map
            (fun rb => (p.name, rb.name)))) := by
    simp only [removeMGMTClusterScopedPrivilegesInProjectNamespace, hpl]
    rw [removeProjectsLoop_all_ok env _ ps hdel]
    simp only [hsel]
  refine ⟨hmain, ?_⟩
  intro pr nm hmem
  rw [hmain] at hmem
  simp only [List.mem_flatMap, List.mem_map, List.mem_filter] at hmem
  obtain ⟨p, hp, rb, ⟨hrbw, hrblbl⟩, heq⟩ := hmem
  obtain ⟨hpname, hrbname⟩ := Prod.mk.injEq _ _ _ _ ▸ heq
  refine ⟨p, hp, hpname, rb, hpname ▸ hrbw, hrbname, ?_⟩
  simpa using hrblbl

/-- Concrete remove environment: one project holding one role binding owned
by crtb-1 and one owned by a different CRTB. -/
def removeEnvW : RemoveEnv where
  projectList := fun _ => .ok [⟨"p-1", false⟩]
  rbWorld := fun ns =>
    if ns = "p-1" then
      [⟨"rb-owned", [("c-1_crtb-1", CrtbInProjectBindingOwner)]⟩,
       ⟨"rb-other", [("c-1_crtb-2", CrtbInProjectBindingOwner)]⟩]
    else []
  deleteOutcome := fun _ _ => .ok ()

/-- Witness for C2: only the role binding labeled with crtb-1's own key is
deleted; the one labeled with crtb-2's key survives. -/
theorem removeMGMT_deletes_exactly_owned_witness :
    removeMGMTClusterScopedPrivilegesInProjectNamespace removeEnvW bindW1 =
      (.ok (), [("p-1", "rb-owned")]) := by
  rw [(removeMGMT_deletes_exactly_owned removeEnvW bindW1 [⟨"p-1", false⟩]
    (by decide) (fun _ _ => rfl)).1]
  decide

/-! ## Label migration (`reconcileLabels`, crtb_handler.go:226-304) -/

/-- Calls issued by `reconcileLabels`, in order: the two lister calls, the
per-item relabel attempts (each standing for the whole
`retry.RetryOnConflict` block of that item), and the final CRTB update. -/
inductive LabelsEvent where
  | listedCRBs
  | listedRBs
  | updatedCRB (name : String)
  | updatedRB (ns name : String)
  | updatedCRTB (ns name : String)
deriving DecidableEq, Repr

/-- Environment for `reconcileLabels`.  `crbListOutcome` models
`crbLister.List(NamespaceAll, legacy-UID selector + requirements)` returning
the names of the matched ClusterRoleBindings; `rbListOutcome` likewise for
the matched RoleBindings (namespace, name); the per-item update outcomes
are the net results of the respective `retry.RetryOnConflict` blocks;
`requirementsOutcome` models the fallible `getLabelRequirements` call
(defined outside the provided sources). -/
structure LabelsEnv where
  requirementsOutcome : Except KErr Unit
  crbListOutcome : Except KErr (List String)
  rbListOutcome : Except KErr (List (String × String))
  crbUpdateOutcome : String → Except KErr Unit
  rbUpdateOutcome : String → String → Except KErr Unit
  crtbUpdateOutcome : Except KErr Unit

/-- The per-item errors collected by `errors.Join` over the CRB loop
(crtb_handler.go:248-263). -/
def crbErrors (env : LabelsEnv) (crbs : List String) : List KErr :=
  crbs.filterMap (fun n =>
    match env.crbUpdateOutcome n with
    | .error e => some e
    | .ok _ => none)

/-- The per-item errors collected by `errors.Join` over the RB loop
(crtb_handler.go:271-286). -/
def rbErrors (env : LabelsEnv) (rbs : List (String × String)) : List KErr :=
  rbs.filterMap (fun r =>
    match env.rbUpdateOutcome r.1 r.2 with
    | .error e => some e
    | .ok _ => none)

/-- `crtbLifecycle.reconcileLabels` (crtb_handler.go:226-304).  The joined
`returnErr` of the Go code is rendered as an error carrying the list of the
individual per-item errors in order; early returns carry a singleton. -/
def reconcileLabels (env : LabelsEnv) (binding : ClusterRoleTemplateBinding) :
    Except (List KErr) Unit × List LabelsEvent :=
  if binding.meta.labels.lookup RtbCrbRbLabelsUpdated = some "true" then
    (.ok (), [])
  else
    match env.requirementsOutcome with
    | .error e => (.error [e], [])
    | .ok _ =>
      match env.crbListOutcome with
      | .error e => (.error [e], [.listedCRBs])
      | .ok crbs =>
        let crbTrace := crbs.map LabelsEvent.updatedCRB
        match env.rbListOutcome with
        | .error e => (.error [e], .listedCRBs :: (crbTrace ++ [.listedRBs]))
        | .ok rbs =>
          let rbTrace := rbs.map (fun r => LabelsEvent.updatedRB r.1 r.2)
          let errs := crbErrors env crbs ++ rbErrors env rbs
          let trace := .listedCRBs :: (crbTrace ++ .listedRBs :: rbTrace)
          if errs ≠ [] then (.error errs, trace)
          else
            match env.crtbUpdateOutcome with
            | .error e =>
              (.error [e], trace ++ [.updatedCRTB binding.meta.ns binding.meta.name])
            | .ok _ =>
              (.ok (), trace ++ [.updatedCRTB binding.meta.ns binding.meta.name])

/-- C5: label migration is idempotent: for a CRTB whose labels already carry
the sentinel `auth.management.cattle.io/crb-rb-labels-updated = "true"`,
`reconcileLabels` returns success immediately with an empty call trace — no
list and no update call is issued, so a second run after a completed first
run changes no label state. -/
theorem reconcileLabels_sentinel_short_circuits (env : LabelsEnv)
    (b : ClusterRoleTemplateBinding)
    (h : b.meta.labels.lookup RtbCrbRbLabelsUpdated = some "true") :
    reconcileLabels env b = (.ok (), []) := by
  simp [reconcileLabels, h]

/-- A CRTB already carrying the migrated sentinel label. -/
def bindW5 : ClusterRoleTemplateBinding :=
  { bindW1 with meta := { metaW with labels := [(RtbCrbRbLabelsUpdated, "true")] } }

/-- Labels environment with one failing CRB relabel among two CRBs and one
healthy RB. -/
def labelsEnvW : LabelsEnv where
  requirementsOutcome := .ok ()
  crbListOutcome := .ok ["crb-1", "crb-2"]
  rbListOutcome := .ok [("p-1", "rb-1")]
  crbUpdateOutcome := fun n =>
    if n = "crb-1" then .error ⟨"conflict retries exhausted on crb-1", false⟩ else .ok ()
  rbUpdateOutcome := fun _ _ => .ok ()
  crtbUpdateOutcome := .ok ()

/-- Witness for C5: a migrated CRTB short-circuits even in an environment
with pending legacy-labeled objects. -/
theorem reconcileLabels_sentinel_short_circuits_witness :
    reconcileLabels labelsEnvW bindW5 = (.ok (), []) :=
  reconcileLabels_sentinel_short_circuits labelsEnvW bindW5 (by decide)

/-- C7: when the migration runs (sentinel unset) and both listers succeed,
every matched ClusterRoleBinding and RoleBinding is attempted, and when any
per-item relabel fails the individual errors are joined and surfaced as one
aggregated error after all items have been processed. -/
theorem reconcileLabels_aggregates_item_errors (env : LabelsEnv)
    (b : ClusterRoleTemplateBinding) (crbs : List String) (rbs : List (String × String))
    (hs : b.meta.labels.lookup RtbCrbRbLabelsUpdated ≠ some "true")
    (hreq : env.requirementsOutcome = .ok ())
    (hcrb : env.crbListOutcome = .ok crbs)
    (hrb : env.rbListOutcome = .ok rbs) :
    (∀ n ∈ crbs, LabelsEvent.updatedCRB n ∈ (reconcileLabels env b).2) ∧
    (∀ r ∈ rbs, LabelsEvent.updatedRB r.1 r.2 ∈ (reconcileLabels env b).2) ∧
    (crbErrors env crbs ++ rbErrors env rbs ≠ [] →
      (reconcileLabels env b).1 = .error (crbErrors env crbs ++ rbErrors env rbs)) := by
  by_cases herrs : crbErrors env crbs ++ rbErrors env rbs = [] <;>
    refine ⟨?_, ?_, ?_⟩ <;>
      first
      | (intro n hn
         cases hco : env.crtbUpdateOutcome <;>
           simp_all [reconcileLabels, hs, hreq, hcrb, hrb, herrs])
      | (intro he
         cases hco : env.crtbUpdateOutcome <;>
           simp_all [reconcileLabels, hs, hreq, hcrb, hrb, herrs])

/-- Witness for C7: both CRBs and the RB are attempted, and the single
per-item failure is surfaced as the aggregated error. -/
theorem reconcileLabels_aggregates_item_errors_witness :
    LabelsEvent.updatedCRB "crb-2" ∈ (reconcileLabels labelsEnvW bindW1).2 ∧
    LabelsEvent.updatedRB "p-1" "rb-1" ∈ (reconcileLabels labelsEnvW bindW1).2 ∧
    (reconcileLabels labelsEnvW bindW1).1 =
      .error (crbErrors labelsEnvW ["crb-1", "crb-2"] ++
        rbErrors labelsEnvW [("p-1", "rb-1")]) :=
  ⟨(reconcileLabels_aggregates_item_errors labelsEnvW bindW1 ["crb-1", "crb-2"]
      [("p-1", "rb-1")] (by decide) rfl rfl rfl).1 "crb-2" (by decide),
   (reconcileLabels_aggregates_item_errors labelsEnvW bindW1 ["crb-1", "crb-2"]
      [("p-1", "rb-1")] (by decide) rfl rfl rfl).2.1 ("p-1", "rb-1") (by decide),
   (reconcileLabels_aggregates_item_errors labelsEnvW bindW1 ["crb-1", "crb-2"]
      [("p-1", "rb-1")] (by decide) rfl rfl rfl).2.2 (by decide)⟩

/-- C10: the CRTB sentinel update is issued only after every matched item
was relabeled without error: if any per-item relabel fails, the aggregated
error is returned and no CRTB update call appears in the trace, so the
sentinel stays unset. -/
theorem reconcileLabels_no_sentinel_on_item_error (env : LabelsEnv)
    (b : ClusterRoleTemplateBinding) (crbs : List String) (rbs : List (String × String))
    (hs : b.meta.labels.lookup RtbCrbRbLabelsUpdated ≠ some "true")
    (hreq : env.requirementsOutcome = .ok ())
    (hcrb : env.crbListOutcome = .ok crbs)
    (hrb : env.rbListOutcome = .ok rbs)
    (herrs : crbErrors env crbs ++ rbErrors env rbs ≠ []) :
    (reconcileLabels env b).1 = .error (crbErrors env crbs ++ rbErrors env rbs) ∧
    ∀ ns n, LabelsEvent.updatedCRTB ns n ∉ (reconcileLabels env b).2 := by
  constructor
  · simp_all [reconcileLabels, hs, hreq, hcrb, hrb, herrs]
  · intro ns n
    simp_all [reconcileLabels, hs, hreq, hcrb, hrb, herrs]

/-- Witness for C10 at the concrete environment with a failing CRB. -/
theorem reconcileLabels_no_sentinel_on_item_error_witness :
    (reconcileLabels labelsEnvW bindW1).1 =
      .error (crbErrors labelsEnvW ["crb-1", "crb-2"] ++
        rbErrors labelsEnvW [("p-1", "rb-1")]) ∧
    LabelsEvent.updatedCRTB "c-1" "crtb-1" ∉ (reconcileLabels labelsEnvW bindW1).2 :=
  ⟨(reconcileLabels_no_sentinel_on_item_error labelsEnvW bindW1 ["crb-1", "crb-2"]
      [("p-1", "rb-1")] (by decide) rfl rfl rfl (by decide)).1,
   (reconcileLabels_no_sentinel_on_item_error labelsEnvW bindW1 ["crb-1", "crb-2"]
      [("p-1", "rb-1")] (by decide) rfl rfl rfl (by decide)).2 "c-1" "crtb-1"⟩

/-! ## Token store (src/unnamed/part_000, package tokens) -/

def tokenNamespace : String := "cattle-token-data"

/-- `RancherTokenSpec`: the spec fields persisted by the store. -/
structure RancherTokenSpec where
  userID : String
  clusterName : String
  ttl : String
  enabled : String
deriving DecidableEq, Repr

/-- `RancherTokenStatus`: plaintext and hashed token values. -/
structure RancherTokenStatus where
  plaintextToken : String
  hashedToken : String
deriving DecidableEq, Repr

/-- `RancherToken`: name, namespace (read by `Update`), spec and status. -/
structure RancherToken where
  name : String
  ns : String
  spec : RancherTokenSpec
  status : RancherTokenStatus
deriving DecidableEq, Repr

/-- A `corev1.Secret` as used by the store: `StringData` is what the client
writes, `Data` is what the server stores and the cache returns. -/
structure Secret where
  ns : String
  name : String
  stringData : List (String × String)
  data : List (String × String)
deriving DecidableEq, Repr

/-- The requesting `user.Info`. -/
structure UserInfo where
  name : String
  groups : List String
  uid : String
deriving DecidableEq, Repr

/-- `secretFromToken` (part_000:190-205): the persisted representation
carries the spec fields and the hashed token; the plaintext value is not
among the written fields. -/
def secretFromToken (token : RancherToken) : Secret :=
  { ns := tokenNamespace,
    name := token.name,
    stringData :=
      [("userID", token.spec.userID),
       ("clusterName", token.spec.clusterName),
       ("ttl", token.spec.ttl),
       ("enabled", token.spec.enabled),
       ("hashedToken", token.status.hashedToken)],
    data := [] }

/-- `tokenFromSecret` (part_000:207-223): reads the secret's `Data`; a
missing key yields the empty string, and the plaintext field is never
populated. -/
def tokenFromSecret (secret : Secret) : RancherToken :=
  { name := secret.name,
    ns := "",
    spec :=
      { userID := (secret.data.lookup "userID").getD "",
        clusterName := (secret.data.lookup "clusterName").getD "",
        ttl := (secret.data.lookup "ttl").getD "",
        enabled := (secret.data.lookup "enabled").getD "" },
    status :=
      { plaintextToken := "",
        hashedToken := (secret.data.lookup "hashedToken").getD "" } }

/-- Secret writes issued by the token store. -/
inductive TokenEvent where
  | createdSecret (s : Secret)
  | updatedSecret (s : Secret)
deriving DecidableEq, Repr

/-- Environment for the token store: `randomtoken.Generate`, the hasher's
`CreateHash`, the secret client/cache, and the SubjectAccessReview
response. -/
structure TokenEnv where
  generate : Except KErr String
  createHash : String → Except KErr String
  secretCacheGet : String → String → Except KErr Secret
  secretCreate : Secret → Except KErr Secret
  secretUpdate : Secret → Except KErr Secret
  secretList : Except KErr (List Secret)
  sarAllowed : UserInfo → Except KErr Bool

/-- `TokenStore.userHasFullPermissions` (part_000:168-188). -/
def userHasFullPermissions (env : TokenEnv) (user : UserInfo) : Except KErr Bool :=
  match env.sarAllowed user with
  | .error e => .error ⟨"uanble to create SAR: " ++ e.msg, e.isNotFound⟩
  | .ok allowed => .ok allowed

/-- The cross-user authorization check shared by the store's methods:
succeeds immediately for the token's own user, otherwise requires a
positive `userHasFullPermissions` answer. -/
def crossUserCheck (env : TokenEnv) (userInfo : UserInfo) (tokenUserID : String) :
    Except KErr Unit :=
  if tokenUserID ≠ userInfo.name then
    match userHasFullPermissions env userInfo with
    | .error e => .error ⟨"unable to check if user has * on tokens: " ++ e.msg, e.isNotFound⟩
    | .ok authed =>
      if authed then .ok ()
      else .error ⟨"can't create token for other user " ++ userInfo.name ++ " since user " ++
        tokenUserID ++ " doesn't have * on ranchertokens", false⟩
  else .ok ()

/-- `TokenStore.Create` (part_000:37-68): generate and hash a value when no
plaintext was supplied, authorize cross-user creation, persist the secret,
and return the token with the hash blanked (the plaintext stays in the
returned object). -/
def TokenStoreCreate (env : TokenEnv) (userInfo : UserInfo) (token : RancherToken) :
    Except KErr RancherToken × List TokenEvent :=
  let prepared : Except KErr RancherToken :=
    if token.status.plaintextToken = "" then
      match env.generate with
      | .error e => .error ⟨"unable to generate token value: " ++ e.msg, e.isNotFound⟩
      | .ok tokenValue =>
        match env.createHash tokenValue with
        | .error e => .error ⟨"unable to hash token value: " ++ e.msg, e.isNotFound⟩
        | .ok hashedValue =>
          .ok { token with status :=
            { plaintextToken := tokenValue, hashedToken := hashedValue } }
    else .ok token
  match prepared with
  | .error e => (.error e, [])
  | .ok token1 =>
    match crossUserCheck env userInfo token1.spec.userID with
    | .error e => (.error e, [])
    | .ok _ =>
      let secret := secretFromToken token1
      match env.secretCreate secret with
      | .error e =>
        (.error ⟨"unable to create secret for token: " ++ e.msg, e.isNotFound⟩,
         [.createdSecret secret])
      | .ok _ =>
        (.ok { token1 with status := { token1.status with hashedToken := "" } },
         [.createdSecret secret])

/-- `TokenStore.Update` (part_000:70-98): authorize, reuse the currently
persisted hash, blank the plaintext before writing, and strip both token
values from the response. -/
def TokenStoreUpdate (env : TokenEnv) (userInfo : UserInfo) (token : RancherToken) :
    Except KErr RancherToken × List TokenEvent :=
  match crossUserCheck env userInfo token.spec.userID with
  | .error e => (.error e, [])
  | .ok _ =>
    match env.secretCacheGet token.ns token.name with
    | .error e =>
      (.error ⟨"unable to get current token " ++ token.name ++ ": " ++ e.msg,
        e.isNotFound⟩, [])
    | .ok currentSecret =>
      let currentToken := tokenFromSecret currentSecret
      let token1 := { token with status :=
        { plaintextToken := "", hashedToken := currentToken.status.hashedToken } }
      let secret := secretFromToken token1
      match env.secretUpdate secret with
      | .error e =>
        (.error ⟨"unable to update token " ++ token.name ++ ": " ++ e.msg, e.isNotFound⟩,
         [.updatedSecret secret])
      | .ok newSecret =>
        let newToken := tokenFromSecret newSecret
        (.ok { newToken with status :=
          { plaintextToken := "", hashedToken := "" } },
         [.updatedSecret secret])

/-- `TokenStore.Get` (part_000:100-119): fetch the secret, authorize, strip
the token values of the local variable — and then return `nil, nil`: the
retrieved token itself is never returned. -/
def TokenStoreGet (env : TokenEnv) (userInfo : UserInfo) (name : String) :
    Except KErr (Option RancherToken) :=
  match env.secretCacheGet tokenNamespace name with
  | .error e => .error ⟨"unable to get token " ++ name ++ ": " ++ e.msg, e.isNotFound⟩
  | .ok currentSecret =>
    let token := tokenFromSecret currentSecret
    match crossUserCheck env userInfo token.spec.userID with
    | .error e => .error e
    | .ok _ => .ok none

/-- `TokenStore.List` (part_000:121-143): list the cached secrets; a caller
without full permissions only sees their own tokens. -/
def TokenStoreList (env : TokenEnv) (userInfo : UserInfo) :
    Except KErr (List RancherToken) :=
  match env.secretList with
  | .error e => .error ⟨"unable to list tokens: " ++ e.msg, e.isNotFound⟩
  | .ok secrets =>
    match userHasFullPermissions env userInfo with
    | .error e => .error ⟨"unable to check if user has * on tokens: " ++ e.msg, e.isNotFound⟩
    | .ok authed =>
      .ok ((secrets.map tokenFromSecret).filter
        (fun t => authed || t.spec.userID == userInfo.name))

/-- C4: the plaintext token value appears only in the object returned by a
successful Create: (1) the persisted secret representation does not depend
on the plaintext field at all; (2,3) every secret written by Create or
Update is the image under `secretFromToken` of a token whose plaintext
field is empty — only the one-way hash is persisted; (4) Update's response
has an empty plaintext field; (5) Get returns no object at all; (6) every
token in a List response has an empty plaintext field; (7) a successful
Create does return the (generated) plaintext. -/
theorem tokenStore_plaintext_only_at_create (env : TokenEnv) (userInfo : UserInfo) :
    (∀ (t : RancherToken) (p q : String),
      secretFromToken { t with status := { t.status with plaintextToken := p } } =
      secretFromToken { t with status := { t.status with plaintextToken := q } }) ∧
    (∀ token s, TokenEvent.createdSecret s ∈ (TokenStoreCreate env userInfo token).2 →
      ∃ t', t'.status.plaintextToken = "" ∧ s = secretFromToken t') ∧
    (∀ token s, TokenEvent.updatedSecret s ∈ (TokenStoreUpdate env userInfo token).2 →
      ∃ t', t'.status.plaintextToken = "" ∧ s = secretFromToken t') ∧
    (∀ token newTok, (TokenStoreUpdate env userInfo token).1 = .ok newTok →
      newTok.status.plaintextToken = "") ∧
    (∀ name tok, TokenStoreGet env userInfo name = .ok tok → tok = none) ∧
    (∀ toks, TokenStoreList env userInfo = .ok toks →
      ∀ t ∈ toks, t.status.plaintextToken = "") ∧
    (∀ token v tok, token.status.plaintextToken = "" → env.generate = .ok v →
      (TokenStoreCreate env userInfo token).1 = .ok tok →
      tok.status.plaintextToken = v) := by
  refine ⟨fun t p q => rfl, ?_, ?_, ?_, ?_, ?_, ?_⟩
  · intro token s hs
    by_cases hp : token.status.plaintextToken = ""
    · cases hg : env.generate with
      | error e => simp [TokenStoreCreate, hp, hg] at hs
      | ok v =>
        cases hh : env.createHash v with
        | error e => simp [TokenStoreCreate, hp, hg, hh] at hs
        | ok hv =>
          cases hc : crossUserCheck env userInfo token.spec.userID with
          | error e => simp [TokenStoreCreate, hp, hg, hh, hc] at hs
          | ok u =>
            cases hcr : env.secretCreate (secretFromToken
                { token with status := { plaintextToken := v, hashedToken := hv } }) with
            | error e =>
              simp [TokenStoreCreate, hp, hg, hh, hc, hcr] at hs
              exact ⟨{ token with status := { plaintextToken := "", hashedToken := hv } },
                rfl, hs⟩
            | ok s2 =>
              simp [TokenStoreCreate, hp, hg, hh, hc, hcr] at hs
              exact ⟨{ token with status := { plaintextToken := "", hashedToken := hv } },
                rfl, hs⟩
    · cases hc : crossUserCheck env userInfo token.spec.userID with
      | error e => simp [TokenStoreCreate, hp, hc] at hs
      | ok u =>
        cases hcr : env.secretCreate (secretFromToken token) with
        | error e =>
          simp [TokenStoreCreate, hp, hc, hcr] at hs
          exact ⟨{ token with status := { token.status with plaintextToken := "" } },
            rfl, hs⟩
        | ok s2 =>
          simp [TokenStoreCreate, hp, hc, hcr] at hs
          exact ⟨{ token with status := { token.status with plaintextToken := "" } },
            rfl, hs⟩
  · intro token s hs
    cases hc : crossUserCheck env userInfo token.spec.userID with
    | error e => simp [TokenStoreUpdate, hc] at hs
    | ok u =>
      cases hg : env.secretCacheGet token.ns token.name with
      | error e => simp [TokenStoreUpdate, hc, hg] at hs
      | ok cs =>
        cases hu : env.secretUpdate (secretFromToken { token with status :=
            { plaintextToken := "",
              hashedToken := (tokenFromSecret cs).status.hashedToken } }) with
        | error e =>
          simp [TokenStoreUpdate, hc, hg, hu] at hs
          exact ⟨{ token with status :=
            { plaintextToken := "",
              hashedToken := (tokenFromSecret cs).status.hashedToken } }, rfl, hs⟩
        | ok s2 =>
          simp [TokenStoreUpdate, hc, hg, hu] at hs
          exact ⟨{ token with status :=
            { plaintextToken := "",
              hashedToken := (tokenFromSecret cs).status.hashedToken } }, rfl, hs⟩
  · intro token newTok h
    cases hc : crossUserCheck env userInfo token.spec.userID with
    | error e => simp [TokenStoreUpdate, hc] at h
    | ok u =>
      cases hg : env.secretCacheGet token.ns token.name with
      | error e => simp [TokenStoreUpdate, hc, hg] at h
      | ok cs =>
        cases hu : env.secretUpdate (secretFromToken { token with status :=
            { plaintextToken := "",
              hashedToken := (tokenFromSecret cs).status.hashedToken } }) with
        | error e => simp [TokenStoreUpdate, hc, hg, hu] at h
        | ok s2 =>
          simp only [TokenStoreUpdate, hc, hg, hu, Except.ok.injEq] at h
          subst h
          rfl
  · intro name tok h
    cases hg : env.secretCacheGet tokenNamespace name with
    | error e => simp [TokenStoreGet, hg] at h
    | ok cs =>
      cases hc : crossUserCheck env userInfo (tokenFromSecret cs).spec.userID with
      | error e => simp [TokenStoreGet, hg, hc] at h
      | ok u =>
        simp only [TokenStoreGet, hg, hc, Except.ok.injEq] at h
        exact h.symm
  · intro toks h t ht
    cases hl : env.secretList with
    | error e => simp [TokenStoreList, hl] at h
    | ok secrets =>
      cases hperm : userHasFullPermissions env userInfo with
      | error e => simp [TokenStoreList, hl, hperm] at h
      | ok authed =>
        simp only [TokenStoreList, hl, hperm, Except.ok.injEq] at h
        subst h
        obtain ⟨hmem, -⟩ := List.mem_filter.mp ht
        obtain ⟨sec, -, rfl⟩ := List.mem_map.mp hmem
        rfl
  · intro token v tok hp hv h
    cases hh : env.createHash v with
    | error e => simp [TokenStoreCreate, hp, hv, hh] at h
    | ok hv2 =>
      cases hc : crossUserCheck env userInfo token.spec.userID with
      | error e => simp [TokenStoreCreate, hp, hv, hh, hc] at h
      | ok u =>
        cases hcr : env.secretCreate (secretFromToken
            { token with status := { plaintextToken := v, hashedToken := hv2 } }) with
        | error e => simp [TokenStoreCreate, hp, hv, hh, hc, hcr] at h
        | ok s2 =>
          simp only [TokenStoreCreate, hp, hv, hh, hc, hcr, if_true, Except.ok.injEq] at h
          subst h
          rfl

/-- The requesting user of the token-store witnesses. -/
def userW : UserInfo := { name := "u-w", groups := [], uid := "uid-w" }

/-- A token of user u-w with no plaintext supplied. -/
def tokW : RancherToken :=
  { name := "tok-1", ns := tokenNamespace,
    spec := { userID := "u-w", clusterName := "c-1", ttl := "1000", enabled := "true" },
    status := { plaintextToken := "", hashedToken := "" } }

/-- Concrete token-store environment in which every external call
succeeds. -/
def tokenEnvW : TokenEnv where
  generate := .ok "generated-value"
  createHash := fun s => .ok ("hash(" ++ s ++ ")")
  secretCacheGet := fun ns n => .ok
    { ns := ns, name := n, stringData := [],
      data := [("userID", "u-w"), ("hashedToken", "hv")] }
  secretCreate := fun s => .ok s
  secretUpdate := fun s => .ok { s with data := s.stringData }
  secretList := .ok
    [{ ns := tokenNamespace, name := "tok-2", stringData := [],
       data := [("userID", "u-w"), ("hashedToken", "h2")] }]
  sarAllowed := fun _ => .ok true

/-- The secret written by the witness Create. -/
def secretCW : Secret :=
  secretFromToken { tokW with status :=
    { plaintextToken := "generated-value", hashedToken := "hash(generated-value)" } }

/-- The secret written by the witness Update. -/
def secretUW : Secret :=
  secretFromToken { tokW with status := { plaintextToken := "", hashedToken := "hv" } }

/-- The token returned by the witness Update. -/
def newTokW : RancherToken :=
  { name := "tok-1", ns := "",
    spec := { userID := "u-w", clusterName := "c-1", ttl := "1000", enabled := "true" },
    status := { plaintextToken := "", hashedToken := "" } }

/-- The token returned by the witness List. -/
def listTokW : RancherToken :=
  { name := "tok-2", ns := "",
    spec := { userID := "u-w", clusterName := "", ttl := "", enabled := "" },
    status := { plaintextToken := "", hashedToken := "h2" } }

/-- The token returned by the witness Create. -/
def createdTokW : RancherToken :=
  { tokW with status := { plaintextToken := "generated-value", hashedToken := "" } }

/-- Witness for C4 at the concrete environment: the secrets written by
Create and Update are plaintext-free images of `secretFromToken`, Update's
and List's responses carry no plaintext, Get returns nothing, and Create
returns the generated plaintext. -/
theorem tokenStore_plaintext_only_at_create_witness :
    (∃ t', t'.status.plaintextToken = "" ∧ secretCW = secretFromToken t') ∧
    (∃ t', t'.status.plaintextToken = "" ∧ secretUW = secretFromToken t') ∧
    newTokW.status.plaintextToken = "" ∧
    (none : Option RancherToken) = none ∧
    (∀ t ∈ [listTokW], t.status.plaintextToken = "") ∧
    createdTokW.status.plaintextToken = "generated-value" :=
  ⟨(tokenStore_plaintext_only_at_create tokenEnvW userW).2.1 tokW secretCW (by decide),
   (tokenStore_plaintext_only_at_create tokenEnvW userW).2.2.1 tokW secretUW (by decide),
   (tokenStore_plaintext_only_at_create tokenEnvW userW).2.2.2.1 tokW newTokW (by decide),
   (tokenStore_plaintext_only_at_create tokenEnvW userW).2.2.2.2.1 "tok-1" none (by decide),
   (tokenStore_plaintext_only_at_create tokenEnvW userW).2.2.2.2.2.1 [listTokW] (by decide),
   (tokenStore_plaintext_only_at_create tokenEnvW userW).2.2.2.2.2.2 tokW
     "generated-value" createdTokW rfl rfl (by decide)⟩

/-- C9: whenever the backing secret lookup succeeds and the cross-user
permission check passes (same user, or a positive full-permissions answer),
`TokenStore.Get` returns a nil token together with a nil error — the
retrieved and field-stripped token is never returned to the caller
(part_000:118 returns `nil, nil`). -/
theorem tokenStoreGet_never_returns_token (env : TokenEnv) (userInfo : UserInfo)
    (name : String) (s : Secret)
    (hget : env.secretCacheGet tokenNamespace name = .ok s)
    (hperm : (tokenFromSecret s).spec.userID = userInfo.name ∨
      userHasFullPermissions env userInfo = .ok true) :
    TokenStoreGet env userInfo name = .ok none := by
  rcases hperm with hperm | hperm
  · simp [TokenStoreGet, hget, crossUserCheck, hperm]
  · by_cases hsame : (tokenFromSecret s).spec.userID = userInfo.name
    · simp [TokenStoreGet, hget, crossUserCheck, hsame]
    · simp [TokenStoreGet, hget, crossUserCheck, hsame, hperm]

/-- Witness for C9: a successful same-user Get yields `.ok none`. -/
theorem tokenStoreGet_never_returns_token_witness :
    TokenStoreGet tokenEnvW userW "tok-1" = .ok none :=
  tokenStoreGet_never_returns_token tokenEnvW userW "tok-1"
    { ns := tokenNamespace, name := "tok-1", stringData := [],
      data := [("userID", "u-w"), ("hashedToken", "hv")] }
    rfl (Or.inl rfl)

/-! ## User-activity store (src/pkg/ext/stores/useractivity/store.go) -/

/-- A `v3.Token` as read by the user-activity store: its name, owning user
and last idle timeout. -/
structure Token where
  name : String
  userID : String
  lastIdleTimeout : Int
deriving DecidableEq, Repr

/-- `ext.UserActivitySpec`. -/
structure UserActivitySpec where
  tokenId : String
deriving DecidableEq, Repr

/-- `ext.UserActivityStatus`: the two serialized timestamps. -/
structure UserActivityStatus where
  lastActivity : String
  currentTimeout : String
deriving DecidableEq, Repr

/-- `ext.UserActivity`. -/
structure UserActivity where
  name : String
  spec : UserActivitySpec
  status : UserActivityStatus
deriving DecidableEq, Repr

/-- Times are modelled as integers (nanoseconds, matching Go's `time.Time`
arithmetic); `time.Minute` is 6e10 nanoseconds. -/
def nanosPerMinute : Int := 60000000000

/-- `metav1.Time.String()` serialization into the status fields, modelled
as the injective integer rendering. -/
def timeString (t : Int) : String := toString t

/-- Modelled from the spec: `setUserActivityName` is defined outside the
provided sources; per the spec the resource name "encodes a user+token
pair", modelled as the joined pair. -/
def setUserActivityName (user tokenName : String) : Except KErr String :=
  .ok (user ++ "_" ++ tokenName)

/-- Environment for the user-activity store: the token controller's
Update. -/
structure ActivityEnv where
  tokenUpdate : Token → Except KErr Token

/-- `Store.create` (store.go:114-148): validate that the resource name is
the user+token encoding and that the named token matches the spec's token,
then stamp the last-activity time, extend the idle timeout by the
configured number of minutes on both the status and the token, and persist
the token.  The trace lists the token updates issued. -/
def storeCreate (env : ActivityEnv) (userActivity : UserActivity) (token : Token)
    (user : String) (lastActivity : Int) (authUserSessionIdleTTLMinutes : Int) :
    Except KErr UserActivity × List Token :=
  match setUserActivityName user token.name with
  | .error e => (.error ⟨"failed to set useractivity name: " ++ e.msg, e.isNotFound⟩, [])
  | .ok expectedName =>
    if userActivity.name ≠ expectedName then
      (.error ⟨"useractivity name mismatch: have " ++ userActivity.name ++
        " - expected " ++ expectedName, false⟩, [])
    else if token.name ≠ userActivity.spec.tokenId then
      (.error ⟨"token name mismatch: have " ++ token.name ++
        " - expected " ++ userActivity.spec.tokenId, false⟩, [])
    else
      let newIdleTimeout := lastActivity + authUserSessionIdleTTLMinutes * nanosPerMinute
      let token1 := { token with lastIdleTimeout := newIdleTimeout }
      let ua := { userActivity with status :=
        { lastActivity := timeString lastActivity,
          currentTimeout := timeString newIdleTimeout } }
      match env.tokenUpdate token1 with
      | .error e => (.error ⟨"failed to update token: " ++ e.msg, e.isNotFound⟩, [token1])
      | .ok _ => (.ok ua, [token1])

/-- C8: on a successful user-activity Create the returned object's
CurrentTimeout equals the stamped last-activity time plus the configured
idle-TTL minutes, and the single token update issued sets LastIdleTimeout
to that same instant; a name mismatch or a token mismatch yields an error
with no token update issued. -/
theorem storeCreate_contract (env : ActivityEnv) (ua : UserActivity) (token : Token)
    (user : String) (lastActivity ttl : Int) :
    (ua.name = user ++ "_" ++ token.name → token.name = ua.spec.tokenId →
      ∀ tok2, env.tokenUpdate
          { token with lastIdleTimeout := lastActivity + ttl * nanosPerMinute } = .ok tok2 →
      storeCreate env ua token user lastActivity ttl =
        (.ok { ua with status :=
          { lastActivity := timeString lastActivity,
            currentTimeout := timeString (lastActivity + ttl * nanosPerMinute) } },
         [{ token with lastIdleTimeout := lastActivity + ttl * nanosPerMinute }])) ∧
    (ua.name ≠ user ++ "_" ++ token.name →
      storeCreate env ua token user lastActivity ttl =
        (.error ⟨"useractivity name mismatch: have " ++ ua.name ++
          " - expected " ++ (user ++ "_" ++ token.name), false⟩, [])) ∧
    (ua.name = user ++ "_" ++ token.name → token.name ≠ ua.spec.tokenId →
      storeCreate env ua token user lastActivity ttl =
        (.error ⟨"token name mismatch: have " ++ token.name ++
          " - expected " ++ ua.spec.tokenId, false⟩, [])) := by
  refine ⟨?_, ?_, ?_⟩
  · intro hname htok tok2 hupd
    rw [htok] at hupd
    simp [storeCreate, setUserActivityName, hname, htok, hupd]
  · intro hname
    simp [storeCreate, setUserActivityName, hname]
  · intro hname htok
    simp [storeCreate, setUserActivityName, hname, htok]

/-- Token and user-activity objects for the C8 witness. -/
def tokenAW : Token := { name := "token-abc", userID := "u-w", lastIdleTimeout := 0 }

def uaW : UserActivity :=
  { name := "u-w_token-abc", spec := { tokenId := "token-abc" },
    status := { lastActivity := "", currentTimeout := "" } }

def activityEnvW : ActivityEnv := { tokenUpdate := fun t => .ok t }

/-- Witness for C8: at last-activity 1000 ns and a 30-minute idle TTL the
returned CurrentTimeout and the updated token both carry
1000 + 30 * 6e10 ns, and a name mismatch issues no token update. -/
theorem storeCreate_contract_witness :
    storeCreate activityEnvW uaW tokenAW "u-w" 1000 30 =
      (.ok { uaW with status :=
        { lastActivity := timeString 1000,
          currentTimeout := timeString (1000 + 30 * nanosPerMinute) } },
       [{ tokenAW with lastIdleTimeout := 1000 + 30 * nanosPerMinute }]) ∧
    storeCreate activityEnvW { uaW with name := "intruder" } tokenAW "u-w" 1000 30 =
      (.error ⟨"useractivity name mismatch: have intruder - expected u-w_token-abc",
        false⟩, []) :=
  ⟨(storeCreate_contract activityEnvW uaW tokenAW "u-w" 1000 30).1 rfl rfl
     { tokenAW with lastIdleTimeout := 1000 + 30 * nanosPerMinute } rfl,
   (storeCreate_contract activityEnvW { uaW with name := "intruder" } tokenAW
     "u-w" 1000 30).2.1 (by decide)⟩

end RancherSpec
